import Mathlib

/-!
Verification of the LOLQA repository's ingestion job pipeline and RAG query
orchestration, as a shallow embedding of the Python sources.

Conventions of the embedding:
* Python strings are Lean `String`s; `str.strip()` is `pyStrip` over the
  ASCII whitespace characters Python strips.
* Fallible Python code (code that may raise) is embedded with `Except String`
  values; a `try/except` block that swallows the exception becomes a total
  function pattern-matching on the `Except`.
* External collaborators (the Redis broker primitives, the JSON codec, the
  text splitter, the embedding model and the language model) are modelled by
  their documented contracts: the broker list is a `List`, `lpush` prepends,
  `rpop`/`brpop` pop the last element, the JSON round-trip is the identity
  (payloads are stored directly), and the splitter / language model are
  arbitrary function parameters.
-/

namespace LOLQA

/-- The set of ASCII whitespace characters stripped by Python `str.strip()`. -/
def pyIsSpace (c : Char) : Bool :=
  c = ' ' || c = '\t' || c = '\n' || c = '\x0b' || c = '\x0c' || c = '\r'

/-- Embedding of Python `str.strip()` (no argument): drop leading and trailing
whitespace. -/
def pyStrip (s : String) : String :=
  String.mk (((s.toList.dropWhile pyIsSpace).reverse.dropWhile pyIsSpace).reverse)

/-- A LangChain `Document`: `page_content` plus a string-keyed metadata dict
(modelled as an association list of string pairs, in insertion order). -/
structure Doc where
  page_content : String
  metadata : List (String × String)
deriving DecidableEq, Repr

/-- Python `repr` of a string-valued metadata dict, as interpolated by
`f"Metadata: \x7bdoc.metadata\x7d\n"` in `format_documents`. -/
def pyDictRepr (m : List (String × String)) : String :=
  "\x7b" ++ String.intercalate ", " (m.map (fun kv => "'" ++ kv.1 ++ "': '" ++ kv.2 ++ "'")) ++ "\x7d"

/-- One iteration of the loop body of `format_documents`
(src/src/utils/helpers.py): the part built for document number `i`. -/
def formatPart (i : Nat) (doc : Doc) (include_metadata : Bool) : String :=
  let part := "[Source " ++ toString i ++ "]\n" ++ doc.page_content ++ "\n"
  if include_metadata && !doc.metadata.isEmpty then
    part ++ "Metadata: " ++ pyDictRepr doc.metadata ++ "\n"
  else
    part

/-- The `formatted_parts` list built by `format_documents`, starting the
`enumerate(documents, 1)` counter at `i`. -/
def formatParts (i : Nat) (include_metadata : Bool) : List Doc → List String
  | [] => []
  | d :: ds => formatPart i d include_metadata :: formatParts (i + 1) include_metadata ds

/-- Embedding of `format_documents` (src/src/utils/helpers.py, lines 23-44). -/
def format_documents (documents : List Doc) (include_metadata : Bool) : String :=
  if documents.isEmpty then "No relevant documents found."
  else String.intercalate "\n" (formatParts 1 include_metadata documents)

/-- Embedding of `validate_question` (src/src/utils/helpers.py, lines 47-64).
Python `if not question` is `question = ""` for a string argument. -/
def validate_question (question : String) (min_length : Nat) : Bool × Option String :=
  if question = "" then
    (false, some "Question cannot be empty")
  else if (pyStrip question).length < min_length then
    (false, some ("Question must be at least " ++ toString min_length ++ " characters long"))
  else
    (true, none)

/-- The numbered block produced for the pair (index, document). -/
def sourceBlock (p : Nat × Doc) : String :=
  "[Source " ++ toString p.1 ++ "]\n" ++ p.2.page_content ++ "\n"

theorem formatParts_eq_enumFrom (n : Nat) (docs : List Doc) :
    formatParts n false docs = (List.enumFrom n docs).map sourceBlock := by
  induction docs generalizing n with
  | nil => rfl
  | cons d ds ih =>
    simp [formatParts, List.enumFrom, ih, formatPart, sourceBlock]

/-- Claim C8: for every non-empty list of retrieved documents, the context
formatter produces (joined with a separating newline) one block per document
of the form `[Source i]`, newline, the document text, newline, with `i`
numbering the documents from 1 in their retrieval order. -/
theorem format_documents_numbered (docs : List Doc) (h : docs ≠ []) :
    format_documents docs false =
      String.intercalate "\n" ((List.enumFrom 1 docs).map sourceBlock) := by
  unfold format_documents
  rw [if_neg (by simpa using h), formatParts_eq_enumFrom]

/-- Witness for C8 at a concrete two-document input. -/
theorem format_documents_numbered_witness :
    format_documents [⟨"Ahri is a mage.", []⟩, ⟨"Yasuo is a fighter.", []⟩] false =
      String.intercalate "\n"
        ((List.enumFrom 1 [Doc.mk "Ahri is a mage." [], Doc.mk "Yasuo is a fighter." []]).map sourceBlock) :=
  format_documents_numbered _ (by simp)

/-- Claim C9: question validation accepts exactly the non-empty questions whose
stripped length reaches the minimum (with no error message), rejects the empty
question with message `Question cannot be empty`, and rejects a too-short
question with message `Question must be at least N characters long`. -/
theorem validate_question_spec (q : String) (n : Nat) :
    ((validate_question q n).1 = true ↔ (q ≠ "" ∧ n ≤ (pyStrip q).length)) ∧
    ((validate_question q n).1 = true → (validate_question q n).2 = none) ∧
    (q = "" → (validate_question q n).2 = some "Question cannot be empty") ∧
    (q ≠ "" → (pyStrip q).length < n →
      (validate_question q n).2 =
        some ("Question must be at least " ++ toString n ++ " characters long")) := by
  unfold validate_question
  by_cases hq : q = "" <;> by_cases hlt : (pyStrip q).length < n <;>
    simp [hq, hlt, Nat.not_lt.mp, Nat.not_le.mpr]

/-- Witness for C9 at concrete inputs: the empty question, a too-short
question, and an accepted question, all with minimum length 3. -/
theorem validate_question_spec_witness :
    (validate_question "" 3).2 = some "Question cannot be empty" ∧
    (validate_question "ab" 3).2 = some "Question must be at least 3 characters long" ∧
    validate_question "What is Ahri?" 3 = (true, none) := by
  refine ⟨(validate_question_spec "" 3).2.2.1 rfl, ?_, ?_⟩
  · exact (validate_question_spec "ab" 3).2.2.2 (by decide) (by decide)
  · have h := (validate_question_spec "What is Ahri?" 3).1.mpr ⟨by decide, by decide⟩
    have h2 := (validate_question_spec "What is Ahri?" 3).2.1 h
    exact Prod.ext h h2

/-! ## Job queue (src/shared/common/redis_client.py)

The broker itself is an external collaborator; its list primitives are
modelled by their Redis contracts over a `List α` (head of the list = left end
of the Redis list): `LPUSH` prepends, `RPOP` removes the last element, and
`BRPOP` removes the last element, or waits up to `timeout` seconds and yields
nothing when the queue stays empty.  Each primitive raises (`RedisError`) when
the broker is unreachable, modelled by `Except`; the third component of a
`dequeue` result is the time in seconds spent blocked inside `BRPOP`.
Serialization (`json.dumps`/`json.loads`) is an external codec whose
round-trip is the identity, so payloads are stored directly. -/

/-- The connection state of a `RedisClient`: `connected` is `self.client is
not None` (the constructor succeeded), `brokerUp` says whether broker
operations succeed or raise `RedisError`. -/
structure RedisClient where
  connected : Bool
  brokerUp : Bool
deriving DecidableEq, Repr

/-- Broker `LPUSH`: prepend at the left end, or raise when unreachable. -/
def lpushOp {α : Type} (rc : RedisClient) (q : List α) (v : α) : Except String (List α) :=
  if rc.brokerUp then .ok (v :: q) else .error "RedisError"

/-- Broker `RPOP`: pop the right end (last element), or raise when
unreachable. -/
def rpopOp {α : Type} (rc : RedisClient) (q : List α) : Except String (Option α × List α) :=
  if rc.brokerUp then .ok (q.getLast?, q.dropLast) else .error "RedisError"

/-- Broker `BRPOP`: pop the right end immediately when non-empty, otherwise
block up to `timeout` seconds and yield nothing; the second component of the
payload is the time spent blocked. -/
def brpopOp {α : Type} (rc : RedisClient) (q : List α) (timeout : Nat) :
    Except String ((Option α × List α) × Nat) :=
  if rc.brokerUp then
    match q.getLast? with
    | some v => .ok ((some v, q.dropLast), 0)
    | none => .ok ((none, q), timeout)
  else .error "RedisError"

/-- Embedding of `RedisClient.enqueue` (redis_client.py, lines 85-105):
`if not self.client: return False`, then `lpush` inside `try`, returning
`False` when the broker raises. -/
def RedisClient.enqueue {α : Type} (rc : RedisClient) (q : List α) (job : α) : Bool × List α :=
  if rc.connected = false then (false, q)
  else
    match lpushOp rc q job with
    | .ok q2 => (true, q2)
    | .error _ => (false, q)

/-- Embedding of `RedisClient.dequeue` (redis_client.py, lines 107-134):
`if not self.client: return None`; `brpop` when `timeout > 0`, `rpop`
otherwise, returning `None` when the broker raises.  The result is
(returned job, queue afterwards, seconds spent blocked). -/
def RedisClient.dequeue {α : Type} (rc : RedisClient) (q : List α) (timeout : Nat) :
    Option α × List α × Nat :=
  if rc.connected = false then (none, q, 0)
  else if 0 < timeout then
    match brpopOp rc q timeout with
    | .ok (r, e) => (r.1, r.2, e)
    | .error _ => (none, q, 0)
  else
    match rpopOp rc q with
    | .ok r => (r.1, r.2, 0)
    | .error _ => (none, q, 0)

/-- A producer pushing `jobs` in order onto queue `q` through
`RedisClient.enqueue`. -/
def enqueueAll {α : Type} (rc : RedisClient) (q : List α) (jobs : List α) : List α :=
  jobs.foldl (fun acc job => (RedisClient.enqueue rc acc job).2) q

/-- A consumer issuing `n` successive `RedisClient.dequeue` calls, collecting
the returned jobs until a call yields nothing. -/
def dequeueAll {α : Type} (rc : RedisClient) (t : Nat) : Nat → List α → List α
  | 0, _ => []
  | n + 1, q =>
    let r := RedisClient.dequeue rc q t
    match r.1 with
    | some j => j :: dequeueAll rc t n r.2.1
    | none => []

theorem dequeue_eq_pop {α : Type} (rc : RedisClient) (hc : rc.connected = true)
    (hb : rc.brokerUp = true) (q : List α) (t : Nat) :
    RedisClient.dequeue rc q t =
      (q.getLast?, q.dropLast, if 0 < t then (if q.length = 0 then t else 0) else 0) := by
  unfold RedisClient.dequeue brpopOp rpopOp
  rw [hc, hb]
  rcases List.eq_nil_or_concat q with rfl | ⟨qs, a, rfl⟩ <;>
    by_cases ht : 0 < t <;>
      simp [ht, List.getLast?_concat, List.dropLast_concat]

theorem enqueueAll_eq {α : Type} (rc : RedisClient) (hc : rc.connected = true)
    (hb : rc.brokerUp = true) (q : List α) (jobs : List α) :
    enqueueAll rc q jobs = jobs.reverse ++ q := by
  induction jobs generalizing q with
  | nil => simp [enqueueAll]
  | cons j js ih =>
    have hstep : (RedisClient.enqueue rc q j).2 = j :: q := by
      simp [RedisClient.enqueue, lpushOp, hc, hb]
    simp only [enqueueAll, List.foldl_cons, hstep]
    rw [show js.foldl (fun acc job => (RedisClient.enqueue rc acc job).2) (j :: q)
          = enqueueAll rc (j :: q) js from rfl, ih]
    simp

theorem dequeueAll_drains {α : Type} (rc : RedisClient) (hc : rc.connected = true)
    (hb : rc.brokerUp = true) (t : Nat) (q : List α) :
    dequeueAll rc t q.length q = q.reverse := by
  induction q using List.reverseRecOn with
  | nil => rfl
  | append_singleton qs a ih =>
    have hlen : (qs ++ [a]).length = qs.length + 1 := by simp
    rw [hlen]
    simp only [dequeueAll, dequeue_eq_pop rc hc hb, List.getLast?_concat, List.dropLast_concat]
    rw [ih]
    simp

/-- Claim C3: the job queue is FIFO — jobs pushed in order by the producer are
returned by successive dequeue calls in exactly that order; moreover a dequeue
blocks at most `timeout` seconds, and a dequeue with `timeout = 0` spends no
time blocked (it is non-blocking). -/
theorem redis_fifo {α : Type} (rc : RedisClient) (jobs : List α) (t : Nat)
    (hc : rc.connected = true) (hb : rc.brokerUp = true) :
    dequeueAll rc t jobs.length (enqueueAll rc [] jobs) = jobs ∧
    (∀ q : List α, (RedisClient.dequeue rc q t).2.2 ≤ t) ∧
    (∀ q : List α, (RedisClient.dequeue rc q 0).2.2 = 0) := by
  refine ⟨?_, ?_, ?_⟩
  · have h1 : enqueueAll rc ([] : List α) jobs = jobs.reverse := by
      rw [enqueueAll_eq rc hc hb]; simp
    rw [h1, show jobs.length = jobs.reverse.length by simp,
      dequeueAll_drains rc hc hb, List.reverse_reverse]
  · intro q
    rw [dequeue_eq_pop rc hc hb]
    by_cases ht : 0 < t
    · simp only [ht, if_true]
      split <;> simp
    · simp [ht]
  · intro q
    rw [dequeue_eq_pop rc hc hb]
    simp

/-- Witness for C3: three concrete jobs dequeue in push order under a live
broker, and the blocking time is bounded by the timeout. -/
theorem redis_fifo_witness :
    dequeueAll ⟨true, true⟩ 5 (["a", "b", "c"] : List String).length
      (enqueueAll ⟨true, true⟩ [] ["a", "b", "c"]) = ["a", "b", "c"] ∧
    (RedisClient.dequeue ⟨true, true⟩ ([] : List String) 5).2.2 ≤ 5 := by
  have h := redis_fifo (⟨true, true⟩ : RedisClient) ["a", "b", "c"] 5 rfl rfl
  exact ⟨h.1, h.2.1 []⟩

/-- Claim C4: with no connected client or a raising broker, `enqueue` returns
`False` and `dequeue` returns `None`, neither propagating the error (both are
total functions handling the `Except.error` case); and `dequeue` on an empty
queue with a positive timeout returns `None` within the timeout without
raising. -/
theorem redis_unavailable_safe {α : Type} (rc : RedisClient) (q : List α) (j : α) (t : Nat) :
    ((rc.connected = false ∨ rc.brokerUp = false) →
      RedisClient.enqueue rc q j = (false, q) ∧
      (RedisClient.dequeue rc q t).1 = none) ∧
    (0 < t →
      (RedisClient.dequeue rc ([] : List α) t).1 = none ∧
      (RedisClient.dequeue rc ([] : List α) t).2.2 ≤ t) := by
  constructor
  · rintro (hdown | hdown) <;>
      cases hconn : rc.connected <;>
        by_cases ht : 0 < t <;>
          simp_all [RedisClient.enqueue, RedisClient.dequeue, lpushOp, brpopOp, rpopOp]
  · intro ht
    cases hconn : rc.connected <;> cases hup : rc.brokerUp <;>
      simp [RedisClient.dequeue, brpopOp, hconn, hup, ht, List.getLast?]

/-- Witness for C4: a connected client whose broker raises, at timeout 5. -/
theorem redis_unavailable_safe_witness :
    RedisClient.enqueue ⟨true, false⟩ (["x"] : List String) "y" = (false, ["x"]) ∧
    (RedisClient.dequeue ⟨true, false⟩ (["x"] : List String) 5).1 = none ∧
    (RedisClient.dequeue ⟨false, true⟩ ([] : List String) 5).1 = none := by
  have h1 := (redis_unavailable_safe (⟨true, false⟩ : RedisClient) ["x"] "y" 5).1 (Or.inr rfl)
  have h2 := (redis_unavailable_safe (⟨false, true⟩ : RedisClient) ([] : List String) "y" 5).2
    (by decide)
  exact ⟨h1.1, h1.2, h2.1⟩

/-! ## Document collection (src/data_collector.py, src/data_sources/sample_data_collector.py)

`SampleDataCollector.collect` builds a fixed list of documents from hard-coded
champion records and game-mechanics texts; it is embedded verbatim.  A
configured collector, as seen by the aggregation loop of
`LoLDataCollector.get_documents`, either returns a document list or raises;
that outcome is `CollectorResult`. -/

/-- A hard-coded champion record of `SampleDataCollector.collect`. -/
structure Champion where
  name : String
  role : String
  description : String
  abilityQ : String
  abilityW : String
  abilityE : String
  abilityR : String
  playstyle : String
deriving DecidableEq, Repr

/-- The champion page content f-string of `SampleDataCollector.collect`,
followed by `.strip()`. -/
def champContent (c : Champion) : String :=
  pyStrip ("\nChampion: " ++ c.name ++ "\nRole: " ++ c.role ++ "\nDescription: "
    ++ c.description ++ "\n\nAbilities:\n- Q: " ++ c.abilityQ ++ "\n- W: " ++ c.abilityW
    ++ "\n- E: " ++ c.abilityE ++ "\n- R: " ++ c.abilityR ++ "\n\nPlaystyle: "
    ++ c.playstyle ++ "\n")

/-- The five sample champions (sample_data_collector.py, lines 33-94). -/
def sampleChampions : List Champion :=
  [⟨"Ahri", "Mage/Assassin",
    "Ahri is a mobile mage-assassin hybrid who uses her charm and mobility to outplay opponents.",
    "Orb of Deception - Sends out an orb that deals magic damage on the way out and true damage on the way back.",
    "Fox-Fire - Summons three fox-fires that target nearby enemies.",
    "Charm - Blows a kiss that charms the first enemy hit, causing them to walk harmlessly towards Ahri.",
    "Spirit Rush - Dashes forward and fires essence bolts, can be cast up to 3 times.",
    "Ahri excels at picking off isolated targets and escaping dangerous situations with her ultimate."⟩,
   ⟨"Yasuo", "Fighter/Assassin",
    "Yasuo is a melee carry who relies on critical strikes and mobility to dominate teamfights.",
    "Steel Tempest - Thrusts forward, dealing damage. After two casts, the third creates a tornado.",
    "Wind Wall - Creates a wall that blocks all enemy projectiles for 4 seconds.",
    "Sweeping Blade - Dashes through a target enemy, dealing damage. Cannot be used on the same target for a few seconds.",
    "Last Breath - Blinks to an airborne enemy champion, dealing damage and keeping them in the air.",
    "Yasuo requires precise positioning and timing to maximize his damage output and survivability."⟩,
   ⟨"Jinx", "Marksman",
    "Jinx is a hyper-carry marksman who excels at dealing massive area damage in teamfights.",
    "Switcheroo! - Switches between Pow-Pow (machine gun) and Fishbones (rocket launcher).",
    "Zap! - Fires a shock blast that slows and reveals the first enemy hit.",
    "Flame Chompers! - Throws three chompers that explode when enemies step on them.",
    "Super Mega Death Rocket! - Fires a global rocket that deals more damage the farther it travels.",
    "Jinx scales incredibly well into late game and can single-handedly win teamfights with proper positioning."⟩,
   ⟨"Thresh", "Support",
    "Thresh is a tanky support who excels at crowd control and protecting allies.",
    "Death Sentence - Throws his scythe, pulling himself and the enemy closer together.",
    "Dark Passage - Throws a lantern that allies can click to dash to Thresh.",
    "Flay - Sweeps his chain, knocking enemies in the direction of the swing.",
    "The Box - Creates walls of spectral energy that slow and damage enemies who pass through.",
    "Thresh is a playmaking support who can initiate fights and save teammates with his utility."⟩,
   ⟨"Lee Sin", "Fighter/Assassin",
    "Lee Sin is a highly mobile jungler known for his early game pressure and outplay potential.",
    "Sonic Wave / Resonating Strike - Fires a skillshot that marks enemies, can recast to dash to them.",
    "Safeguard / Iron Will - Dashes to an ally or ward, gaining a shield. Can activate for lifesteal and spell vamp.",
    "Tempest / Cripple - Slams the ground, dealing damage and revealing enemies. Can recast to slow.",
    "Dragon's Rage - Kicks an enemy champion away, dealing damage and knocking back all enemies hit.",
    "Lee Sin requires high mechanical skill and game knowledge to maximize his impact throughout the game."⟩]

/-- The three game-mechanics documents of `SampleDataCollector.collect`
(sample_data_collector.py, lines 117-153); their page contents keep the
leading and trailing newline of the triple-quoted literals. -/
def gameMechanicsDocs : List Doc :=
  [⟨"\nLeague of Legends Game Mechanics:\n\nLaning Phase: The early game phase where players farm minions and trade with opponents in their assigned lanes.\nObjectives: Important map locations like Dragon, Baron Nashor, and Rift Herald that provide team-wide benefits.\nTeamfighting: Coordinated group combat where teams fight for objectives or map control.\nPositioning: Critical skill of placing your champion in optimal locations during fights to maximize effectiveness while minimizing risk.\nVision Control: Using wards and sweepers to control map visibility and prevent ganks.\n",
    [("type", "game_mechanics"), ("source", "sample")]⟩,
   ⟨"\nItem Builds in League of Legends:\n\nCore Items: Essential items that define a champion's playstyle and power spikes.\nSituational Items: Items built based on the enemy team composition and game state.\nBoots: Movement speed items that also provide combat stats. Different types for different roles.\nMythic Items: Powerful items that define a champion's build path and provide unique effects.\nLegendary Items: High-tier items that complement the mythic item choice.\n",
    [("type", "items"), ("source", "sample")]⟩,
   ⟨"\nRanked System:\n\nRanked Tiers: Iron, Bronze, Silver, Gold, Platinum, Emerald, Diamond, Master, Grandmaster, Challenger\nLP (League Points): Points earned or lost based on match outcomes\nPromotion Series: Best-of series to advance to the next tier\nMMR (Matchmaking Rating): Hidden rating that determines matchmaking\n",
    [("type", "ranked"), ("source", "sample")]⟩]

/-- Embedding of `SampleDataCollector.collect` (sample_data_collector.py,
lines 21-157): the champion documents followed by the game-mechanics
documents. -/
def sampleCollect : List Doc :=
  sampleChampions.map (fun c =>
    ⟨champContent c,
     [("champion", c.name), ("role", c.role), ("type", "champion"), ("source", "sample")]⟩)
  ++ gameMechanicsDocs

/-- What a configured collector does when `LoLDataCollector.get_documents`
calls its `collect()`: return a document list, or raise. -/
inductive CollectorResult where
  | ok (docs : List Doc)
  | raised (msg : String)
deriving DecidableEq, Repr

/-- The documents a collector outcome contributes (none when it raised). -/
def collectorDocs : CollectorResult → List Doc
  | .ok docs => docs
  | .raised _ => []

/-- One iteration of the aggregation loop of `get_documents`
(data_collector.py, lines 108-124): `extend` on a truthy (non-empty) result,
skip on an empty result or an exception. -/
def collectStep (acc : List Doc) (r : CollectorResult) : List Doc :=
  match r with
  | .ok docs => if docs.isEmpty then acc else acc ++ docs
  | .raised _ => acc

/-- Embedding of `LoLDataCollector.get_documents` (data_collector.py,
lines 95-139): aggregate over the configured collectors, then fall back to a
fresh `SampleDataCollector().collect()` when nothing was collected. -/
def get_documents (collectors : List CollectorResult) : List Doc :=
  let all_documents := collectors.foldl collectStep []
  if all_documents.isEmpty then sampleCollect else all_documents

theorem foldl_collectStep_nil (collectors : List CollectorResult) (acc : List Doc)
    (h : ∀ r ∈ collectors, collectorDocs r = []) :
    collectors.foldl collectStep acc = acc := by
  induction collectors generalizing acc with
  | nil => rfl
  | cons c cs ih =>
    have hc : collectorDocs c = [] := h c (by simp)
    have hstep : collectStep acc c = acc := by
      cases c with
      | ok docs =>
        simp only [collectorDocs] at hc
        simp [collectStep, hc]
      | raised m => rfl
    rw [List.foldl_cons, hstep]
    exact ih acc (fun r hr => h r (by simp [hr]))

theorem sampleCollect_ne_nil : sampleCollect ≠ [] := by
  have hlen : sampleCollect.length = 8 := by
    simp [sampleCollect, sampleChampions, gameMechanicsDocs]
  exact List.length_pos.mp (by omega)

/-- Claim C5: `get_documents` always returns a non-empty list — a raising or
empty collector is skipped without aborting the aggregation — and when every
configured source yields nothing or raises, the result is exactly the
sample-data fallback collector's output, which is non-empty. -/
theorem get_documents_nonempty (collectors : List CollectorResult) :
    get_documents collectors ≠ [] ∧
    ((∀ r ∈ collectors, collectorDocs r = []) → get_documents collectors = sampleCollect) := by
  constructor
  · unfold get_documents
    by_cases hall : (collectors.foldl collectStep []).isEmpty
    · simpa [hall] using sampleCollect_ne_nil
    · simpa [hall] using (by simpa [List.isEmpty_iff] using hall : collectors.foldl collectStep [] ≠ [])
  · intro h
    unfold get_documents
    rw [foldl_collectStep_nil collectors [] h]
    rfl

/-- Witness for C5: one raising collector and one empty collector fall back to
the sample data, and the result is non-empty. -/
theorem get_documents_nonempty_witness :
    get_documents [.raised "connection timeout", .ok []] = sampleCollect ∧
    get_documents [.raised "connection timeout", .ok []] ≠ [] := by
  have h := get_documents_nonempty [.raised "connection timeout", .ok []]
  exact ⟨h.2 (by decide), h.1⟩

/-! ## Ingestion pipeline (src/services/data-pipeline-service/pipeline.py, main.py)

`RecursiveCharacterTextSplitter.split_documents` and the embedding model are
external; the whole chunk-and-embed step is the function parameter `splitter`.
The Chroma vector store is its chunk contents: `none` before creation,
`some chunks` afterwards.  `Chroma.from_documents` replaces the store,
`add_documents` appends. -/

/-- The result dict returned by `DataPipeline.run` on success:
`documents`, `chunks`, `status`. -/
structure RunResult where
  documents : Nat
  chunks : Nat
  status : String
deriving DecidableEq, Repr

/-- The pipeline's persistent state: the vector store (`none` until first
created). -/
structure PipelineState where
  vectorstore : Option (List Doc)
deriving DecidableEq, Repr

/-- Embedding of `DataPipeline.run` (pipeline.py, lines 106-180) given the
already-collected documents: raise `ValueError("No documents collected")` on
an empty corpus, otherwise chunk, then create / force-refresh / append the
vector store and return the statistics dict.  The first component is the
returned value or the raised exception's message; the second is the vector
store afterwards. -/
def DataPipeline.run (splitter : List Doc → List Doc) (collected : List Doc)
    (force_refresh : Bool) (st : PipelineState) : Except String RunResult × PipelineState :=
  if collected.isEmpty then (.error "No documents collected", st)
  else
    let splits := splitter collected
    let newStore : List Doc :=
      match st.vectorstore with
      | none => splits
      | some existing => if force_refresh then splits else existing ++ splits
    (.ok ⟨collected.length, splits.length, "success"⟩, ⟨some newStore⟩)

/-- A job's status, as written to the `pipeline_jobs` table. -/
inductive JobStatus where
  | queued
  | running
  | completed
  | failed
deriving DecidableEq, Repr

/-- One `create_pipeline_job`/`update_pipeline_job` write: status, message,
and the optional `result`/`error` columns. -/
structure JobUpdate where
  status : JobStatus
  message : String
  result : Option RunResult
  error : Option String
deriving DecidableEq, Repr

/-- Embedding of `run_pipeline_job` (main.py, lines 166-207), given the
outcome of `pipeline.run`: the sequence of job-record writes it performs.
The function is total — the `except` clause converts any raised exception
into a `failed` write instead of re-raising past the job boundary. -/
def run_pipeline_job (pipelineRun : Except String RunResult) : List JobUpdate :=
  ⟨.running, "Starting pipeline...", none, none⟩ ::
    match pipelineRun with
    | .ok result =>
        [⟨.completed,
          "Pipeline completed successfully. Processed " ++ toString result.documents
            ++ " documents.",
          some result, none⟩]
    | .error e => [⟨.failed, e, none, some e⟩]

/-- Embedding of the job-record writes of the `/ingest` handler `ingest_data`
(main.py, lines 241-292): create the record as `queued`; mark it `failed` when
the Redis enqueue reports failure. -/
def ingest_data (enqueueSuccess : Bool) : List JobUpdate :=
  ⟨.queued, "Job queued", none, none⟩ ::
    (if enqueueSuccess then []
     else [⟨.failed, "Failed to enqueue job to Redis", none, some "Redis enqueue failed"⟩])

/-- All job-record writes a single job can receive across the `/ingest`
handler and the worker: the handler's writes, then — only when the job was
enqueued and the worker picked it up — the writes of `run_pipeline_job`. -/
def jobUpdates (enqueueSuccess workerProcessed : Bool)
    (pipelineRun : Except String RunResult) : List JobUpdate :=
  ingest_data enqueueSuccess ++
    (if enqueueSuccess && workerProcessed then run_pipeline_job pipelineRun else [])

/-- The status values of a job's writes, in order. -/
def statusTrace (enqueueSuccess workerProcessed : Bool)
    (pipelineRun : Except String RunResult) : List JobStatus :=
  (jobUpdates enqueueSuccess workerProcessed pipelineRun).map JobUpdate.status

/-- Position of a status in the `queued → running → terminal` lifecycle. -/
def statusRank : JobStatus → Nat
  | .queued => 0
  | .running => 1
  | .completed => 2
  | .failed => 2

/-- Claim C1: given any outcome of the pipeline run, `run_pipeline_job` writes
`running` and then exactly one terminal record — `failed` carrying the
exception's message as the error when the run raised (the exception is
swallowed, not re-raised), and `completed` carrying the result whose
`documents` count is the number of collected documents and whose `chunks`
count is the number of produced chunks when the run succeeded. -/
theorem run_pipeline_job_spec (splitter : List Doc → List Doc) (collected : List Doc)
    (fr : Bool) (st : PipelineState) :
    (∀ e : String, (DataPipeline.run splitter collected fr st).1 = .error e →
      run_pipeline_job (DataPipeline.run splitter collected fr st).1 =
        [⟨.running, "Starting pipeline...", none, none⟩, ⟨.failed, e, none, some e⟩]) ∧
    (∀ res : RunResult, (DataPipeline.run splitter collected fr st).1 = .ok res →
      run_pipeline_job (DataPipeline.run splitter collected fr st).1 =
        [⟨.running, "Starting pipeline...", none, none⟩,
         ⟨.completed,
          "Pipeline completed successfully. Processed " ++ toString res.documents
            ++ " documents.",
          some res, none⟩] ∧
      res.documents = collected.length ∧ res.chunks = (splitter collected).length) := by
  constructor
  · intro e he
    rw [he]
    rfl
  · intro res hres
    refine ⟨by rw [hres]; rfl, ?_⟩
    unfold DataPipeline.run at hres
    by_cases hemp : collected.isEmpty
    · simp [hemp] at hres
    · simp only [hemp, if_false, Bool.false_eq_true] at hres
      have : RunResult.mk collected.length (splitter collected).length "success" = res := by
        simpa using hres
      rw [← this]
      exact ⟨rfl, rfl⟩

/-- Witness for C1: a one-document corpus with an identity splitter completes
with `documents = 1`, `chunks = 1`, and an empty corpus records `failed` with
the raised message. -/
theorem run_pipeline_job_spec_witness :
    run_pipeline_job (DataPipeline.run id [Doc.mk "Ahri is a mage." []] false ⟨none⟩).1 =
      [⟨.running, "Starting pipeline...", none, none⟩,
       ⟨.completed, "Pipeline completed successfully. Processed 1 documents.",
        some ⟨1, 1, "success"⟩, none⟩] ∧
    run_pipeline_job (DataPipeline.run id [] false ⟨none⟩).1 =
      [⟨.running, "Starting pipeline...", none, none⟩,
       ⟨.failed, "No documents collected", none, some "No documents collected"⟩] := by
  constructor
  · exact ((run_pipeline_job_spec id [Doc.mk "Ahri is a mage." []] false ⟨none⟩).2
      ⟨1, 1, "success"⟩ rfl).1
  · exact (run_pipeline_job_spec id [] false ⟨none⟩).1 "No documents collected" rfl

/-- Claim C6: a pipeline run over an empty collected corpus raises
(`ValueError("No documents collected")`) instead of completing as a no-op, the
vector store is left untouched, and the job is consequently recorded as
`failed`. -/
theorem pipeline_empty_corpus_fails (splitter : List Doc → List Doc) (fr : Bool)
    (st : PipelineState) :
    DataPipeline.run splitter [] fr st = (.error "No documents collected", st) ∧
    run_pipeline_job (DataPipeline.run splitter [] fr st).1 =
      [⟨.running, "Starting pipeline...", none, none⟩,
       ⟨.failed, "No documents collected", none, some "No documents collected"⟩] :=
  ⟨rfl, rfl⟩

/-- Claim C2: over every control path of the `/ingest` handler and worker, the
sequence of status values written for a job is a subsequence of
`queued, running, completed` or of `queued, running, failed`; the sequence is
strictly increasing in lifecycle rank, so a status never regresses and
`completed`/`failed` are terminal. -/
theorem job_status_monotonic (es wp : Bool) (pr : Except String RunResult) :
    (List.Sublist (statusTrace es wp pr)
        [JobStatus.queued, JobStatus.running, JobStatus.completed] ∨
     List.Sublist (statusTrace es wp pr)
        [JobStatus.queued, JobStatus.running, JobStatus.failed]) ∧
    List.Chain' (fun a b => statusRank a < statusRank b) (statusTrace es wp pr) := by
  cases es <;> cases wp <;> rcases pr with e | res <;>
    simp [statusTrace, jobUpdates, ingest_data, run_pipeline_job] <;>
    decide

/-! ## RAG query orchestration (src/rag_system.py, lines 291-402)

The language model is external: `llm_with_tools` (the tool-bound model) and
`llm` (the plain model) are function parameters from prompt text to response.
`LoLRAGSystem.query` is embedded as the answer it returns together with the
list of prompts sent to the model, in order, so the number of model calls is
the length of that list. -/

/-- A tool call signaled by the model: the named function and its arguments
(arguments abstracted to their serialized form). -/
structure ToolCall where
  name : String
  args : String
deriving DecidableEq, Repr

/-- A model response: `content` plus the signaled `tool_calls`. -/
structure AIMessage where
  content : String
  tool_calls : List ToolCall
deriving DecidableEq, Repr

/-- A registered tool of `_create_llm_with_tools`: its `.name` and its
`invoke` behaviour on serialized arguments. -/
structure RagTool where
  name : String
  invoke : String → String

/-- Python truthiness of an `Optional[str]`: `None` and the empty string are
falsy. -/
def pyTruthyStr : Option String → Bool
  | none => false
  | some s => !(s == "")

/-- The `system_prompt` literal of `LoLRAGSystem.query` (rag_system.py,
lines 313-332). -/
def system_prompt : String :=
  "You are a helpful assistant specialized in League of Legends knowledge.\nYou have access to tools to retrieve information from a database.\n\nCRITICAL RULES:\n1. You MUST ONLY use the tools provided to get information\n2. NEVER use your training data or general knowledge\n3. If a tool returns no relevant information, say \"I don't have that information in my knowledge base\"\n4. Do NOT mention your training data cutoff date or October 2023\n\nAvailable information in the database:\n- Champion details (abilities, stats, lore, skins)\n- Champion counts and lists\n- Role-based filtering\n\nFor questions about:\n- \"how many champions\" → use count_champions tool\n- \"list champions\" or \"all champion names\" → use list_champions tool\n- Specific champion info → use search_champion_info tool\n- \"when was data updated\" → Say \"This is live data from the League of Legends database\"\n"

/-- The `prompt_text` assembled by `query` (rag_system.py, lines 334-348):
the system prompt, the conversation history when one is supplied (truthy),
and the current question. -/
def buildPromptText (question : String) (chat_history : Option String) : String :=
  if pyTruthyStr chat_history then
    system_prompt ++ "\n\nConversation History:\n" ++ chat_history.getD ""
      ++ "\n\nCurrent Question: " ++ question ++ "\n\nThink about which tool to use."
  else
    system_prompt ++ "\n\nQuestion: " ++ question ++ "\n\nThink about which tool to use."

/-- The tool-dispatch loop of `query` (rag_system.py, lines 357-370): for each
signaled call, scan the registered tools for the first one with a matching
name, run it and record `name: result`, with a call matching no tool
contributing nothing. -/
def dispatchTools (tools : List RagTool) : List ToolCall → List String
  | [] => []
  | tc :: rest =>
    match tools.find? (fun t => t.name == tc.name) with
    | some t => (tc.name ++ ": " ++ t.invoke tc.args) :: dispatchTools tools rest
    | none => dispatchTools tools rest

/-- The `final_prompt` f-string of `query` (rag_system.py, lines 374-387). -/
def finalPromptText (tool_context question : String) : String :=
  "You are answering a League of Legends question using ONLY the tool results below.\n\nTool Results:\n"
    ++ tool_context ++ "\n\nUser Question: " ++ question
    ++ "\n\nCRITICAL RULES:\n1. Answer ONLY using the information from the tool results above\n2. If the tool results don't contain relevant information, say \"I don't have that information in my knowledge base\"\n3. NEVER use your training data or mention \"October 2023\" or any cutoff date\n4. If asked about data freshness, say \"This is live data from the League of Legends database\"\n\nProvide a clear, helpful answer based strictly on the tool results."

/-- Embedding of `LoLRAGSystem.query` (rag_system.py, lines 291-402): reasoning
call first; when it signals tool calls, dispatch them, concatenate the results
with blank lines and make one final-answer call; otherwise the first response
is the answer.  Returns the answer together with the prompts sent to the
model, in order. -/
def query (llm_with_tools : String → AIMessage) (llm : String → String)
    (tools : List RagTool) (question : String) (chat_history : Option String) :
    String × List String :=
  let prompt_text := buildPromptText question chat_history
  let ai_msg := llm_with_tools prompt_text
  if !ai_msg.tool_calls.isEmpty then
    let tool_results := dispatchTools tools ai_msg.tool_calls
    let tool_context := String.intercalate "\n\n" tool_results
    let final_prompt := finalPromptText tool_context question
    (llm final_prompt, [prompt_text, final_prompt])
  else
    (ai_msg.content, [prompt_text])

/-- Claim C7: each query invokes the model at most twice — exactly once, with
the first response's content returned directly, when no tool call is signaled,
and exactly twice, the second over the concatenated tool results, when at
least one tool call is signaled. -/
theorem query_at_most_two_model_calls (lwt : String → AIMessage) (llm : String → String)
    (tools : List RagTool) (question : String) (chat_history : Option String) :
    (query lwt llm tools question chat_history).2.length ≤ 2 ∧
    ((lwt (buildPromptText question chat_history)).tool_calls = [] →
      (query lwt llm tools question chat_history).2 = [buildPromptText question chat_history] ∧
      (query lwt llm tools question chat_history).1 =
        (lwt (buildPromptText question chat_history)).content) ∧
    ((lwt (buildPromptText question chat_history)).tool_calls ≠ [] →
      (query lwt llm tools question chat_history).2 =
        [buildPromptText question chat_history,
         finalPromptText
           (String.intercalate "\n\n"
             (dispatchTools tools (lwt (buildPromptText question chat_history)).tool_calls))
           question] ∧
      (query lwt llm tools question chat_history).1 =
        llm (finalPromptText
          (String.intercalate "\n\n"
            (dispatchTools tools (lwt (buildPromptText question chat_history)).tool_calls))
          question)) := by
  by_cases h : (lwt (buildPromptText question chat_history)).tool_calls = [] <;>
    simp [query, h, List.isEmpty_iff]

/-- Witness for C7: a stub model with no tool call answers in one call with
its own content; a stub model signaling one tool call leads to two calls. -/
theorem query_at_most_two_model_calls_witness :
    (query (fun _ => ⟨"direct answer", []⟩) (fun _ => "final answer") [] "What is Ahri?" none).2 =
      [buildPromptText "What is Ahri?" none] ∧
    (query (fun _ => ⟨"direct answer", []⟩) (fun _ => "final answer") [] "What is Ahri?" none).1 =
      "direct answer" ∧
    (query (fun _ => ⟨"", [⟨"search_champion_info", "Ahri"⟩]⟩) (fun _ => "final answer")
        [⟨"search_champion_info", fun _ => "Ahri info"⟩] "What is Ahri?" none).2.length = 2 := by
  have h1 := query_at_most_two_model_calls (fun _ => ⟨"direct answer", []⟩)
    (fun _ => "final answer") [] "What is Ahri?" none
  have h2 := query_at_most_two_model_calls (fun _ => ⟨"", [⟨"search_champion_info", "Ahri"⟩]⟩)
    (fun _ => "final answer") [⟨"search_champion_info", fun _ => "Ahri info"⟩] "What is Ahri?" none
  obtain ⟨ha, hb⟩ := h1.2.1 rfl
  have hc := (h2.2.2 (by simp)).1
  exact ⟨ha, hb, by rw [hc]; rfl⟩

/-- Claim C10: a signaled tool call whose name matches no registered tool is
silently skipped — it contributes nothing to the tool results and raises no
error — and the final-answer model call still proceeds over the results of
the matching calls. -/
theorem unknown_tool_silently_skipped (tools : List RagTool) (pre post : List ToolCall)
    (tc : ToolCall) (hno : ∀ t ∈ tools, t.name ≠ tc.name) :
    dispatchTools tools (pre ++ tc :: post) = dispatchTools tools (pre ++ post) ∧
    (∀ (lwt : String → AIMessage) (llm : String → String) (question : String)
        (chat_history : Option String),
      (lwt (buildPromptText question chat_history)).tool_calls = pre ++ tc :: post →
        (query lwt llm tools question chat_history).2.length = 2 ∧
        (query lwt llm tools question chat_history).1 =
          llm (finalPromptText
            (String.intercalate "\n\n" (dispatchTools tools (pre ++ post))) question)) := by
  have hfind : tools.find? (fun t => t.name == tc.name) = none := by
    rw [List.find?_eq_none]
    intro t ht
    simpa using hno t ht
  have hskip : dispatchTools tools (pre ++ tc :: post) = dispatchTools tools (pre ++ post) := by
    induction pre with
    | nil => simp only [List.nil_append, dispatchTools, hfind]
    | cons p ps ih =>
      simp only [List.cons_append, dispatchTools, List.append_eq]
      cases tools.find? (fun t => t.name == p.name) <;> simp only [ih]
  refine ⟨hskip, ?_⟩
  intro lwt llm question chat_history hcalls
  have hne : (lwt (buildPromptText question chat_history)).tool_calls ≠ [] := by
    rw [hcalls]; simp
  constructor <;>
    simp [query, hcalls, hskip, List.isEmpty_iff]

/-- Witness for C10: with one registered tool, a matching call plus an
unmatched call dispatch to the same results as the matching call alone. -/
theorem unknown_tool_silently_skipped_witness :
    dispatchTools [⟨"count_champions", fun _ => "There are 5 champions."⟩]
        ([⟨"count_champions", "all"⟩] ++ ToolCall.mk "unknown_tool" "x" :: []) =
      dispatchTools [⟨"count_champions", fun _ => "There are 5 champions."⟩]
        ([⟨"count_champions", "all"⟩] ++ []) := by
  exact (unknown_tool_silently_skipped [⟨"count_champions", fun _ => "There are 5 champions."⟩]
    [⟨"count_champions", "all"⟩] [] ⟨"unknown_tool", "x"⟩
    (by intro t ht; rw [List.mem_singleton] at ht; subst ht; decide)).1

end LOLQA
